import Mathlib

/-!
Verification of the LVM (LabVIEW measurement file) reader.

This file gives a shallow embedding of `src/lvm_read.py` (together with the
declarative schema tables of `src/lvm_format.py`) and proves properties of the
embedded functions.  Python values flowing through the parser are modelled by
`Scalar`/`PyVal`; Python exceptions by `PyErr` through `Except`.  Python floats
are modelled exactly as rationals: every numeric literal the parser accepts is
a finite decimal, which a rational represents exactly, and none of the
properties proved here depend on IEEE rounding.  Python's one-shot line
iterator is modelled by passing the list of remaining lines in and out of each
reader.
-/

/-- Python exceptions that the reader can raise.  `lvmError` is the module's
own `LVMFormatError`; the others are builtin Python exceptions raised by the
operations the code performs (dict lookup, `max`, `zip`, indexing, ...). -/
inductive PyErr where
  | lvmError (msg : String)
  | keyError (key : String)
  | typeError (msg : String)
  | valueError (msg : String)
  | attributeError (msg : String)
  | indexError (msg : String)
  | nameError (msg : String)
  | stopIteration
  deriving DecidableEq, Repr

/-- A scalar Python value as produced by `parse_value` / `_lvm_float`:
`none` is Python's `None`, numbers keep Python's int/float distinction
(floats modelled as exact rationals), `date`/`time` stand for the
`datetime.date`/`datetime.time` objects built by `strptime`. -/
inductive Scalar where
  | none
  | int (n : Int)
  | float (q : ℚ)
  | str (s : String)
  | bool (b : Bool)
  | date (y m d : Nat)
  | time (h mi s usec : Nat)
  deriving DecidableEq, Repr

/-- A header value: a scalar, or a per-channel list of scalars (the only list
values the reader ever stores are lists of scalars). -/
inductive PyVal where
  | scalar (s : Scalar)
  | list (vs : List Scalar)
  deriving DecidableEq, Repr

/-- Python's type name of a scalar, for error messages. -/
def scalarTypeName : Scalar → String
  | .none => "NoneType"
  | .int _ => "int"
  | .float _ => "float"
  | .str _ => "str"
  | .bool _ => "bool"
  | .date _ _ _ => "datetime.date"
  | .time _ _ _ _ => "datetime.time"

/-- Python's type name of a value, for error messages. -/
def pyTypeName : PyVal → String
  | .scalar s => scalarTypeName s
  | .list _ => "list"

/-- Whether `pat` is a prefix of `s` (as `str.startswith` on char lists). -/
def isPre : List Char → List Char → Bool
  | [], _ => true
  | _ :: _, [] => false
  | p :: ps, c :: cs => p == c && isPre ps cs

/-- Whether `pat` occurs as a contiguous substring of `s` (Python's `in`). -/
def containsSub (s pat : List Char) : Bool :=
  isPre pat s ||
    match s with
    | [] => false
    | _ :: rest => containsSub rest pat

/-- Python's `str.startswith`. -/
def pyStartsWith (s pre : String) : Bool :=
  isPre pre.toList s.toList

/-- Fuel-driven worker for `pyReplace`: the fuel bounds the number of steps by
the length of `s` (every step consumes at least one character of `s` or ends),
so the fuel-exhausted branch is unreachable from `pyReplace`. -/
def pyReplaceF (pat rep : List Char) : Nat → List Char → List Char
  | _, [] => match pat with | [] => rep | _ :: _ => []
  | 0, s => s
  | fuel + 1, c :: rest =>
    if pat ≠ [] ∧ isPre pat (c :: rest) then
      rep ++ pyReplaceF pat rep fuel ((c :: rest).drop pat.length)
    else if pat = [] then
      rep ++ c :: pyReplaceF pat rep fuel rest
    else
      c :: pyReplaceF pat rep fuel rest

/-- Python's `str.replace` on char lists: every non-overlapping occurrence of
`pat` in `s`, scanned left to right, is replaced by `rep`.  An empty `pat`
matches before every character and at the end, as in Python. -/
def pyReplace (s pat rep : List Char) : List Char :=
  pyReplaceF pat rep s.length s

/-- Python's `str.replace` on strings. -/
def pyReplaceStr (s pat rep : String) : String :=
  (pyReplace s.toList pat.toList rep.toList).asString

/-- Fuel-driven worker for `pySplitList`: split off the chunk before each
occurrence of `sep` (assumed non-empty), accumulating the current chunk in
reverse.  The fuel bounds the steps by the length of the input, so its
exhausted branch is unreachable from `pySplitList`. -/
def splitAux (sep : List Char) : Nat → List Char → List Char → List (List Char)
  | _, acc, [] => [acc.reverse]
  | 0, acc, s => [acc.reverse ++ s]
  | fuel + 1, acc, c :: rest =>
    if isPre sep (c :: rest) then
      acc.reverse :: splitAux sep fuel [] ((c :: rest).drop sep.length)
    else
      splitAux sep fuel (c :: acc) rest

/-- Python's `s.split(sep)` for a non-empty separator: maximal chunks between
occurrences, keeping empty chunks (`"a\t".split("\t") = ["a", ""]` and
`"".split("\t") = [""]`). -/
def pySplitList (s sep : String) : List String :=
  (splitAux sep.toList (s.toList.length + 1) [] s.toList).map List.asString

/-- Fuel-driven worker for `natToHex`; eight hex digits cover every Unicode
code point, the only arguments it receives. -/
def natToHexF : Nat → Nat → List Char
  | 0, _ => []
  | fuel + 1, n =>
    if n < 16 then [Nat.digitChar n]
    else natToHexF fuel (n / 16) ++ [Nat.digitChar (n % 16)]

/-- Python's `hex(n)[2:]` for a character code: lowercase hex digits with no
leading zeros (`hex(9)[2:] = "9"`, `hex(44)[2:] = "2c"`). -/
def natToHex (n : Nat) : List Char :=
  natToHexF 8 n

/-- Exact rational addition computed on the normalized representation (the
library's rational addition is shielded from unfolding, so the readers use
this definitionally transparent equivalent). -/
def qAdd (a b : ℚ) : ℚ :=
  mkRat (a.num * b.den + b.num * a.den) (a.den * b.den)

/-- Exact rational multiplication, as `qAdd`. -/
def qMul (a b : ℚ) : ℚ :=
  mkRat (a.num * b.num) (a.den * b.den)

/-- Rational order, computed by cross multiplication (denominators are
positive). -/
def qLtB (a b : ℚ) : Bool :=
  a.num * b.den < b.num * a.den

/-- Rational equality on the normalized representation. -/
def qEqB (a b : ℚ) : Bool :=
  a.num == b.num && a.den == b.den

/-- The rational value of a natural number. -/
def natQ (n : Nat) : ℚ := mkRat n 1

/-- Value of a decimal digit character, if it is one. -/
def digitVal (c : Char) : Option Nat :=
  if c.toNat ≥ 48 ∧ c.toNat ≤ 57 then some (c.toNat - 48) else Option.none

/-- Whether every character of the list is a decimal digit. -/
def allDigits (cs : List Char) : Bool :=
  cs.all (fun c => (digitVal c).isSome)

/-- Natural number denoted by a list of decimal digit characters. -/
def digitsToNat (cs : List Char) : Nat :=
  cs.foldl (fun acc c => acc * 10 + ((digitVal c).getD 0)) 0

/-- Python's `int(s)`: optional surrounding spaces, an optional sign, then one
or more decimal digits.  (Underscore digit grouping is not modelled; the file
format never produces it.)  Returns nothing where Python raises `ValueError`. -/
def pyInt (s : String) : Option Int :=
  let cs := (s.toList.dropWhile (· == ' ')).reverse.dropWhile (· == ' ') |>.reverse
  let (sign, digits) :=
    match cs with
    | '-' :: rest => ((-1 : Int), rest)
    | '+' :: rest => ((1 : Int), rest)
    | rest => ((1 : Int), rest)
  if digits ≠ [] ∧ allDigits digits then some (sign * (digitsToNat digits : Int))
  else Option.none

/-- Helper for `pyFloat`: parse an optional exponent part (`e`/`E`, optional
sign, digits).  Returns the exponent and requires the rest to be empty. -/
def parseExp (cs : List Char) : Option Int :=
  match cs with
  | [] => some 0
  | e :: rest =>
    if e == 'e' ∨ e == 'E' then
      let (sign, digits) :=
        match rest with
        | '-' :: r => ((-1 : Int), r)
        | '+' :: r => ((1 : Int), r)
        | r => ((1 : Int), r)
      if digits ≠ [] ∧ allDigits digits then some (sign * (digitsToNat digits : Int))
      else Option.none
    else Option.none

/-- Python's `float(s)` restricted to finite decimal literals: optional
surrounding spaces, optional sign, digits with an optional single decimal
point, optional exponent.  The special forms `inf`/`nan` are not modelled (the
measurement format never writes them); the result is an exact rational. -/
def pyFloat (s : String) : Option ℚ :=
  let cs := (s.toList.dropWhile (· == ' ')).reverse.dropWhile (· == ' ') |>.reverse
  let (sign, body) :=
    match cs with
    | '-' :: rest => ((-1 : Int), rest)
    | '+' :: rest => ((1 : Int), rest)
    | rest => ((1 : Int), rest)
  let intPart := body.takeWhile (fun c => (digitVal c).isSome)
  let afterInt := body.drop intPart.length
  let core : Option (Int × Nat × List Char) :=
    match afterInt with
    | '.' :: rest =>
      let fracPart := rest.takeWhile (fun c => (digitVal c).isSome)
      let afterFrac := rest.drop fracPart.length
      if intPart = [] ∧ fracPart = [] then Option.none
      else some ((digitsToNat intPart * 10 ^ fracPart.length + digitsToNat fracPart : Nat),
                 10 ^ fracPart.length, afterFrac)
    | rest =>
      if intPart = [] then Option.none
      else some ((digitsToNat intPart : Nat), 1, rest)
  match core with
  | Option.none => Option.none
  | some (m, d, rest) =>
    match parseExp rest with
    | Option.none => Option.none
    | some e =>
      if 0 ≤ e then some (mkRat (sign * m * ((10 ^ e.toNat : Nat) : Int)) d)
      else some (mkRat (sign * m) (d * 10 ^ (-e).toNat))

/-- Lookup in an association-list model of a Python dict (keys unique,
insertion order preserved by `setA`). -/
abbrev PyDict := List (String × PyVal)

/-- Dict lookup: `m.get(k)` as an option. -/
def getA (m : PyDict) (k : String) : Option PyVal :=
  match m with
  | [] => Option.none
  | (k', v) :: rest => if k' == k then some v else getA rest k

/-- Dict update `m[k] = v`: replaces in place, appends a new key at the end,
exactly like a Python dict preserving insertion order. -/
def setA (m : PyDict) (k : String) (v : PyVal) : PyDict :=
  match m with
  | [] => [(k, v)]
  | (k', v') :: rest => if k' == k then (k, v) :: rest else (k', v') :: setA rest k v

/-- Fetch `m[k]` expecting a string (the reader only does this for the
`Separator` and `Decimal_Separator` entries, which are always strings); a
missing key is Python's `KeyError`. -/
def fetchStr (m : PyDict) (k : String) : Except PyErr String :=
  match getA m k with
  | Option.none => .error (.keyError k)
  | some (PyVal.scalar (.str s)) => .ok s
  | some v => .error (.typeError ("expected str, got " ++ pyTypeName v))

/-- Fetch `m[k]`; a missing key is Python's `KeyError`. -/
def fetchV (m : PyDict) (k : String) : Except PyErr PyVal :=
  match getA m k with
  | Option.none => .error (.keyError k)
  | some v => .ok v

/-! Constants of `lvm_format.py`. -/

/-- End-of-header marker (`lvm_format.END_OF_HEADER`). -/
def END_OF_HEADER : String := "***End_of_Header***"

/-- Magic identifier at the start of every file (`lvm_format.FILE_MAGIC_IDENTIFIER`). -/
def FILE_MAGIC_IDENTIFIER : String := "LabVIEW Measurement"

/-- Start marker of a special block (`lvm_format.SPECIAL_BLOCK_START`). -/
def SPECIAL_BLOCK_START : String := "***Start_Special***"

/-- End marker of a special block (`lvm_format.SPECIAL_BLOCK_END`). -/
def SPECIAL_BLOCK_END : String := "***End_Special***"

/-- One entry of a header schema table: required flag, declared type tag,
default value (present exactly for the non-required fields), and the option
set for `options`-typed fields. -/
structure FieldSpec where
  required : Bool
  vtype : String
  default : Option Scalar
  options : List String
  deriving DecidableEq, Repr

/-- The file-header schema (`lvm_format.FILE_HEADERS`), in source order. -/
def FILE_HEADERS : List (String × FieldSpec) :=
  [ ("Date", FieldSpec.mk true "date" Option.none []),
    ("Description", FieldSpec.mk false "text" (some (.str "")) []),
    ("Multi_Headings", FieldSpec.mk false "bool" (some (.bool false)) []),
    ("Operator", FieldSpec.mk false "text" (some (.str "")) []),
    ("Project", FieldSpec.mk false "text" (some (.str "")) []),
    ("Reader_Version", FieldSpec.mk false "float" (some (.str "Writer_Version")) []),
    ("Separator", FieldSpec.mk false "text" (some (.str "\t")) []),
    ("Decimal_Separator", FieldSpec.mk false "text" (some (.str ",")) []),
    ("Time", FieldSpec.mk true "time" Option.none []),
    ("Time_Pref", FieldSpec.mk false "options" (some (.str "Relative"))
      ["Absolute", "Relative"]),
    ("Writer_Version", FieldSpec.mk true "float" Option.none []),
    ("X_Columns", FieldSpec.mk false "options" (some (.str "One"))
      ["No", "One", "Multi"]) ]

/-- The segment-header schema (`lvm_format.SEGMENT_HEADERS`), in source order. -/
def SEGMENT_HEADERS : List (String × FieldSpec) :=
  [ ("Channels", FieldSpec.mk true "integer" Option.none []),
    ("Date", FieldSpec.mk true "date" Option.none []),
    ("Delta_X", FieldSpec.mk true "number" Option.none []),
    ("Notes", FieldSpec.mk false "text" (some (.str "")) []),
    ("Samples", FieldSpec.mk true "integer" Option.none []),
    ("Test_Name", FieldSpec.mk false "text" (some (.str "")) []),
    ("Test_Numbers", FieldSpec.mk false "text" (some (.str "")) []),
    ("Test_Series", FieldSpec.mk false "text" (some (.str "")) []),
    ("Time", FieldSpec.mk true "time" Option.none []),
    ("UUT_M/N", FieldSpec.mk false "text" (some (.str "")) []),
    ("UUT_Name", FieldSpec.mk false "text" (some (.str "")) []),
    ("UUT_S/N", FieldSpec.mk false "text" (some (.str "")) []),
    ("X0", FieldSpec.mk true "number" Option.none []),
    ("X_Dimension", FieldSpec.mk false "text" (some (.str "Time")) []),
    ("X_Unit_Label", FieldSpec.mk false "text" (some (.str "Default SI Unit")) []),
    ("Y_Dimension", FieldSpec.mk false "text" (some (.str "Electric Potential")) []),
    ("Y_Unit_Label", FieldSpec.mk false "text" (some (.str "Default SI Unit")) []) ]

/-- Schema lookup (`key in SPEC` / `SPEC[key]`). -/
def specLookup (spec : List (String × FieldSpec)) (key : String) : Option FieldSpec :=
  match spec with
  | [] => Option.none
  | (k, fs) :: rest => if k == key then some fs else specLookup rest key

/-- The initial header dict: every non-required field set to its schema
default (the dict comprehensions at `lvm_read.py:270` and `lvm_read.py:374`). -/
def initHeaders (spec : List (String × FieldSpec)) : PyDict :=
  spec.filterMap (fun p =>
    if p.2.required then Option.none
    else some (p.1, PyVal.scalar (p.2.default.getD Scalar.none)))

/-- Number of days of a month, with the Gregorian leap rule (what
`datetime.date` enforces). -/
def daysInMonth (y m : Nat) : Nat :=
  if m = 2 then
    if y % 4 = 0 ∧ (y % 100 ≠ 0 ∨ y % 400 = 0) then 29 else 28
  else if m = 4 ∨ m = 6 ∨ m = 9 ∨ m = 11 then 30
  else 31

/-- Python's `datetime.strptime(value, "%Y/%m/%d").date()`: three `/`-separated
digit groups (year up to 4 digits, month and day up to 2), validated as a real
calendar date; anything else raises `ValueError`. -/
def parseDate (value : String) : Except PyErr Scalar :=
  match pySplitList value "/" with
  | [ys, ms, ds] =>
    let yc := ys.toList
    let mc := ms.toList
    let dc := ds.toList
    if yc ≠ [] ∧ yc.length ≤ 4 ∧ allDigits yc ∧
       mc ≠ [] ∧ mc.length ≤ 2 ∧ allDigits mc ∧
       dc ≠ [] ∧ dc.length ≤ 2 ∧ allDigits dc then
      let y := digitsToNat yc
      let m := digitsToNat mc
      let d := digitsToNat dc
      if 1 ≤ m ∧ m ≤ 12 ∧ 1 ≤ d ∧ d ≤ daysInMonth y m then
        .ok (.date y m d)
      else .error (.valueError ("day is out of range for month: " ++ value))
    else .error (.valueError ("time data does not match format: " ++ value))
  | _ => .error (.valueError ("time data does not match format: " ++ value))

/-- Python's `datetime.strptime(value, "%H:%M:%S").time()` with optional
microseconds already split off: three `:`-separated digit groups (up to 2
digits each) in range. -/
def parseTimeBase (value : String) (usec : Nat) : Except PyErr Scalar :=
  match pySplitList value ":" with
  | [hs, ms, ss] =>
    let hc := hs.toList
    let mc := ms.toList
    let sc := ss.toList
    if hc ≠ [] ∧ hc.length ≤ 2 ∧ allDigits hc ∧
       mc ≠ [] ∧ mc.length ≤ 2 ∧ allDigits mc ∧
       sc ≠ [] ∧ sc.length ≤ 2 ∧ allDigits sc then
      let h := digitsToNat hc
      let mi := digitsToNat mc
      let s := digitsToNat sc
      if h ≤ 23 ∧ mi ≤ 59 ∧ s ≤ 59 then .ok (.time h mi s usec)
      else .error (.valueError ("time field out of range: " ++ value))
    else .error (.valueError ("time data does not match format: " ++ value))
  | _ => .error (.valueError ("time data does not match format: " ++ value))

/-- The `time` branch of `parse_value` (`lvm_read.py:153-162`): if the decimal
separator occurs in the token, the part after it is fractional seconds,
truncated to 6 digits and parsed with `%f` (digits, right-padded to
microseconds); splitting into more than two parts is Python's unpack
`ValueError`. -/
def parseTime (value : String) (decsep : String) : Except PyErr Scalar :=
  if containsSub value.toList decsep.toList then
    if decsep = "" then .error (.valueError "empty separator")
    else
    match pySplitList value decsep with
    | [t, msec] =>
      let msec6 := (msec.toList.take 6)
      if msec6 ≠ [] ∧ allDigits msec6 then
        parseTimeBase t (digitsToNat msec6 * 10 ^ (6 - msec6.length))
      else .error (.valueError ("time data does not match format: " ++ value))
    | _ => .error (.valueError "too many values to unpack (expected 2)")
  else
    parseTimeBase value 0

/-- `lvm_read._lvm_float`: the empty string is no value; otherwise the decimal
separator is replaced by a dot and the result parsed as a float, a failed
parse being no value. -/
def _lvm_float (value : String) (decsep : String) : Option ℚ :=
  if value = "" then Option.none
  else pyFloat (pyReplaceStr value decsep ".")

/-- `lvm_read.parse_value`: coerce a raw token to its declared type.  `vtype`
is the schema's type tag (`Option.none` models the Python `None` tag, which no
schema entry uses).  Each branch mirrors the source:
the `number` branch calls `.is_integer()` on the result of `_lvm_float`, so a
token that fails the float parse (the empty string included) raises
`AttributeError` there; `integer`/`float` return Python `None` on failure;
`bool` executes `raise None` on a token that is neither `Yes` nor `No`, which
in Python is a `TypeError`; an unknown tag falls off the end of the function,
returning Python `None`. -/
def parse_value (value : String) (vtype : Option String) (sep : String)
    (decsep : String) : Except PyErr Scalar :=
  if vtype = some "number" then
    match _lvm_float value decsep with
    | Option.none =>
      .error (.attributeError "'NoneType' object has no attribute 'is_integer'")
    | some q => if q.den = 1 then .ok (.int q.num) else .ok (.float q)
  else if vtype = some "integer" then
    match pyInt value with
    | some n => .ok (.int n)
    | Option.none => .ok Scalar.none
  else if vtype = some "float" then
    match _lvm_float value decsep with
    | some q => .ok (.float q)
    | Option.none => .ok Scalar.none
  else if vtype = some "options" then
    .ok (.str value)
  else if vtype = some "text" then
    match sep.toList with
    | [c] =>
      let sepHex := '\\' :: natToHex c.toNat
      .ok (.str (pyReplace
        (pyReplace value.toList (sepHex.map Char.toUpper) [c])
        (sepHex.map Char.toLower) [c]).asString)
    | _ => .error (.typeError "ord() expected a character")
  else if vtype = some "date" then
    parseDate value
  else if vtype = some "time" then
    parseTime value decsep
  else if vtype = some "bool" then
    if value = "Yes" then .ok (.bool true)
    else if value = "No" then .ok (.bool false)
    else .error (.typeError "exceptions must derive from BaseException")
  else if vtype = Option.none then
    .ok (.str "")
  else
    .ok Scalar.none

/-- A natural number rendered with leading zeros up to the given width. -/
def padNum (width n : Nat) : String :=
  let s := toString n
  if s.length < width then
    String.mk (List.replicate (width - s.length) '0') ++ s
  else s

/-- Python's `str()` rendering of a scalar, for f-string error messages.
Non-integral floats are rendered as `num/den`, an approximation of Python's
shortest-roundtrip decimal rendering that only affects message text, never
control flow. -/
def pyStrScalar : Scalar → String
  | .none => "None"
  | .int n => toString n
  | .float q => if q.den = 1 then toString q.num ++ ".0"
                else toString q.num ++ "/" ++ toString q.den
  | .str s => s
  | .bool b => if b then "True" else "False"
  | .date y m d => padNum 4 y ++ "-" ++ padNum 2 m ++ "-" ++ padNum 2 d
  | .time h mi s u =>
    padNum 2 h ++ ":" ++ padNum 2 mi ++ ":" ++ padNum 2 s ++
      (if u ≠ 0 then "." ++ padNum 6 u else "")

/-- Python's `str()` rendering of a value. -/
def pyStrVal : PyVal → String
  | .scalar s => pyStrScalar s
  | .list vs => "[" ++ String.intercalate ", " (vs.map pyStrScalar) ++ "]"

/-- Python's `repr()` of a scalar (quotes around strings, constructor form for
dates and times with trailing zero fields of a time omitted), for f-string
rendering of lists, which reprs the elements.  Escaping inside the quoted
string form is not modelled. -/
def pyReprScalar : Scalar → String
  | .str s => "'" ++ s ++ "'"
  | .date y m d =>
    "datetime.date(" ++ toString y ++ ", " ++ toString m ++ ", " ++
      toString d ++ ")"
  | .time h mi s u =>
    "datetime.time(" ++ toString h ++ ", " ++ toString mi ++
      (if s ≠ 0 ∨ u ≠ 0 then ", " ++ toString s else "") ++
      (if u ≠ 0 then ", " ++ toString u else "") ++ ")"
  | s => pyStrScalar s

/-- Python's `repr()` of a list of scalars: `[e1, e2, ...]`. -/
def pyReprList (vs : List Scalar) : String :=
  "[" ++ String.intercalate ", " (vs.map pyReprScalar) ++ "]"

/-- `lvm_read.validate_header` (`lvm_read.py:98-112`): walk the schema in
order; a required field whose stored value is Python `None` is an
`LVMFormatError`, and an `options` field holding a value outside its option
set is an `LVMFormatError`.  The lookups mirror Python's short-circuit
evaluation: a required field missing from the dict raises `KeyError` while
evaluating `headers[h] is None`, and a non-required `options` field missing
from the dict raises `KeyError` in the `elif`. -/
def validate_header (headers : PyDict) (spec : List (String × FieldSpec)) :
    Except PyErr Unit :=
  match spec with
  | [] => .ok ()
  | (h, fs) :: rest =>
    let checkOptions : Except PyErr Unit :=
      if fs.vtype == "options" then
        match getA headers h with
        | Option.none => .error (.keyError h)
        | some v =>
          if fs.options.any (fun o => v == PyVal.scalar (.str o)) then .ok ()
          else .error (.lvmError ("Header " ++ h ++ " has no option " ++ pyStrVal v))
      else .ok ()
    let step : Except PyErr Unit :=
      if fs.required then
        match getA headers h with
        | Option.none => .error (.keyError h)
        | some v =>
          if v == PyVal.scalar Scalar.none then
            .error (.lvmError ("Header " ++ h ++ " not found"))
          else checkOptions
      else checkOptions
    match step with
    | .error e => .error e
    | .ok _ => validate_header headers rest

/-- `lvm_read.get_separator` (`lvm_read.py:69-91`): scan forward; the first
line starting with `Separator` yields the character at index 9 (Python's
`line[len('Separator')]`, an `IndexError` if the line is exactly that word);
an end-of-header marker first yields the schema default (a tab).  Lines read
before the match are the replay buffer; the matched line itself is consumed
and not buffered.  Exhausting the input is an `LVMFormatError`.  Returns
(separator, buffer, remaining lines). -/
def get_separator : List String → Except PyErr (String × List String × List String)
  | [] => .error (.lvmError "Unable to find Separator header")
  | line :: rest =>
    if pyStartsWith line "Separator" then
      match line.toList.get? 9 with
      | some c => .ok (String.singleton c, [], rest)
      | Option.none => .error (.indexError "string index out of range")
    else if pyStartsWith line END_OF_HEADER then
      .ok ("\t", [], rest)
    else
      match get_separator rest with
      | .ok (s, buf, rem) => .ok (s, line :: buf, rem)
      | .error e => .error e

/-- `lvm_read.skip_special_block`: consume lines up to and including the first
one starting with the special-block end marker. -/
def skip_special_block : List String → List String
  | [] => []
  | line :: rest =>
    if pyStartsWith line SPECIAL_BLOCK_END then rest
    else skip_special_block rest

/-- Strip `\r` and `\n` anywhere in the line
(`line.replace('\r', '').replace('\n', '')`). -/
def stripNl (s : String) : String :=
  pyReplaceStr (pyReplaceStr s "\r" "") "\n" ""

/-- Python's `repr()` of a list of strings, for the key/value-pair error
message of the file-header reader. -/
def pyReprStrList (xs : List String) : String :=
  "[" ++ String.intercalate ", " (xs.map (fun s => "'" ++ s ++ "'")) ++ "]"

/-- Python's `s.split(sep)`: an empty separator is a `ValueError`. -/
def pySplit (s sep : String) : Except PyErr (List String) :=
  if sep = "" then .error (.valueError "empty separator")
  else .ok (pySplitList s sep)

/-! Python operator semantics needed by the data reader. -/

/-- A numeric view of a scalar: Python lets `bool` take part in arithmetic
and comparisons as 0/1. -/
def numQ : Scalar → Option ℚ
  | .int n => some (mkRat n 1)
  | .float q => some q
  | .bool b => some (mkRat (if b then 1 else 0) 1)
  | _ => Option.none

/-- Python `==` between a value and a string literal (used for the
`x_columns == "One"` tests): equal only for an equal `str`. -/
def pyEqStr (v : PyVal) (s : String) : Bool :=
  v == PyVal.scalar (.str s)

/-- Python `==` between `len(data)` and a stored header value: numeric
equality for numbers (and bools), `False` for every other type. -/
def pyEqLen (n : Nat) (v : PyVal) : Bool :=
  match v with
  | .scalar s => match numQ s with
    | some q => qEqB (natQ n) q
    | Option.none => false
  | .list _ => false

/-- Python `<` between an int and a scalar: numeric comparison when both are
numbers, otherwise a `TypeError` (as for `int < str`). -/
def pyLtNat (n : Nat) (s : Scalar) : Except PyErr Bool :=
  match numQ s with
  | some q => .ok (qLtB (natQ n) q)
  | Option.none =>
    .error (.typeError ("'<' not supported between instances of 'int' and '" ++
      scalarTypeName s ++ "'"))

/-- Python `!=` between an int and a scalar: numeric inequality when both are
numbers, `True` for any other type (Python `!=` never raises here). -/
def pyNeNat (n : Nat) (s : Scalar) : Bool :=
  match numQ s with
  | some q => !(qEqB (natQ n) q)
  | Option.none => true

/-- Lexicographic order on char lists by code point (Python string order). -/
def listLtChar : List Char → List Char → Bool
  | [], [] => false
  | [], _ :: _ => true
  | _ :: _, [] => false
  | a :: as, b :: bs =>
    if a.toNat < b.toNat then true
    else if b.toNat < a.toNat then false
    else listLtChar as bs

/-- Python `>` between two scalars, as used by `max`: numbers compare
numerically, strings lexicographically, anything else is a `TypeError`. -/
def pyGt (a b : Scalar) : Except PyErr Bool :=
  match numQ a, numQ b with
  | some qa, some qb => .ok (qLtB qb qa)
  | _, _ =>
    match a, b with
    | .str x, .str y => .ok (listLtChar y.toList x.toList)
    | _, _ =>
      .error (.typeError ("'>' not supported between instances of '" ++
        scalarTypeName a ++ "' and '" ++ scalarTypeName b ++ "'"))

/-- The fold of Python's `max` over the remaining elements. -/
def pyMaxFold (acc : Scalar) : List Scalar → Except PyErr Scalar
  | [] => .ok acc
  | y :: ys =>
    match pyGt y acc with
    | .error e => .error e
    | .ok b => pyMaxFold (if b then y else acc) ys

/-- Python's `max(v)` over a header value: a scalar is not iterable
(`TypeError`) except a string, which iterates over its characters; an empty
sequence is a `ValueError`; elements are compared with `>`. -/
def pyMax (v : PyVal) : Except PyErr Scalar :=
  match v with
  | .scalar (.str s) =>
    match s.toList with
    | [] => .error (.valueError "max() arg is an empty sequence")
    | c :: cs => pyMaxFold (.str (String.singleton c)) (cs.map (fun d => .str (String.singleton d)))
  | .scalar s => .error (.typeError ("'" ++ scalarTypeName s ++ "' object is not iterable"))
  | .list [] => .error (.valueError "max() arg is an empty sequence")
  | .list (x :: xs) => pyMaxFold x xs

/-- Python's `range(v)` length: an int (negative meaning empty) or a bool;
anything else cannot be interpreted as an integer. -/
def pyRangeLen (v : PyVal) : Except PyErr Nat :=
  match v with
  | .scalar (.int n) => .ok n.toNat
  | .scalar (.bool b) => .ok (if b then 1 else 0)
  | _ =>
    .error (.typeError ("'" ++ pyTypeName v ++
      "' object cannot be interpreted as an integer"))

/-- Python's `v[i]` for a nonnegative index: lists and strings index,
everything else is not subscriptable. -/
def pyIndex (v : PyVal) (i : Nat) : Except PyErr Scalar :=
  match v with
  | .list xs =>
    match xs.get? i with
    | some x => .ok x
    | Option.none => .error (.indexError "list index out of range")
  | .scalar (.str s) =>
    match s.toList.get? i with
    | some c => .ok (.str (String.singleton c))
    | Option.none => .error (.indexError "string index out of range")
  | .scalar s =>
    .error (.typeError ("'" ++ scalarTypeName s ++ "' object is not subscriptable"))

/-- Python `+` on the numeric scalars the data reader adds (int/float/bool);
an int result stays an int, any float operand gives a float.  Other operand
types (never produced by the numeric field parses feeding this) raise
`TypeError`. -/
def pyAdd (a b : Scalar) : Except PyErr Scalar :=
  match a, b with
  | .int x, .int y => .ok (.int (x + y))
  | _, _ =>
    match numQ a, numQ b with
    | some qa, some qb =>
      match a, b with
      | .bool _, .bool _ => .ok (.int ((if qa = 1 then 1 else 0) + (if qb = 1 then 1 else 0)))
      | .bool x, .int y => .ok (.int ((if x then 1 else 0) + y))
      | .int x, .bool y => .ok (.int (x + (if y then 1 else 0)))
      | _, _ => .ok (.float (qAdd qa qb))
    | _, _ =>
      .error (.typeError ("unsupported operand type(s) for +: '" ++
        scalarTypeName a ++ "' and '" ++ scalarTypeName b ++ "'"))

/-- Python `*` on the numeric scalars the data reader multiplies; same
conventions as `pyAdd`. -/
def pyMul (a b : Scalar) : Except PyErr Scalar :=
  match a, b with
  | .int x, .int y => .ok (.int (x * y))
  | _, _ =>
    match numQ a, numQ b with
    | some qa, some qb =>
      match a, b with
      | .bool _, .bool _ => .ok (.int ((if qa = 1 then 1 else 0) * (if qb = 1 then 1 else 0)))
      | .bool x, .int y => .ok (.int ((if x then 1 else 0) * y))
      | .int x, .bool y => .ok (.int (x * (if y then 1 else 0)))
      | _, _ => .ok (.float (qMul qa qb))
    | _, _ =>
      .error (.typeError ("unsupported operand type(s) for *: '" ++
        scalarTypeName a ++ "' and '" ++ scalarTypeName b ++ "'"))

/-- Python truthiness of a stored header value (used for
`if file_header['Multi_Headings']`). -/
def pyTruthy : PyVal → Bool
  | .scalar .none => false
  | .scalar (.int n) => n != 0
  | .scalar (.float q) => q != 0
  | .scalar (.str s) => s != ""
  | .scalar (.bool b) => b
  | .scalar (.date _ _ _) => true
  | .scalar (.time _ _ _ _) => true
  | .list vs => !vs.isEmpty

/-- The scalar stored for an optional float (`_lvm_float` result): a float or
Python `None`. -/
def scalarOfFloat : Option ℚ → Scalar
  | some q => .float q
  | Option.none => Scalar.none

/-- Python list indexing on the split row (`values[i]`). -/
def listIdx (xs : List String) (i : Nat) : Except PyErr String :=
  match xs.get? i with
  | some v => .ok v
  | Option.none => .error (.indexError "list index out of range")

/-! The file-header reader. -/

/-- The header loop of `lvm_read.read_file_header` (`lvm_read.py:392-430`),
over the replayed-then-live line sequence after the magic line.  `fuel`
strictly exceeds the number of remaining lines (each iteration consumes at
least the line it reads), so the fuel branch is unreachable; it only
discharges termination.  Returns the finished header and the remaining
lines. -/
def rfhLoop (fuel : Nat) (separator : String) (hdr : PyDict)
    (lines : List String) : Except PyErr (PyDict × List String) :=
  match fuel with
  | 0 => .error (.lvmError "loop fuel exhausted")
  | fuel + 1 =>
    match lines with
    | [] => .error (.lvmError "Failed to parse file header")
    | rawLine :: rest =>
      let line := stripNl rawLine
      if pyStartsWith line END_OF_HEADER then
        match validate_header hdr FILE_HEADERS with
        | .error e => .error e
        | .ok _ => .ok (setA hdr "Separator" (PyVal.scalar (.str separator)), rest)
      else if pyStartsWith line separator then
        rfhLoop fuel separator hdr rest
      else if pyStartsWith line SPECIAL_BLOCK_START then
        rfhLoop fuel separator hdr (skip_special_block rest)
      else
        match pySplit line separator with
        | .error e => .error e
        | .ok parts =>
          match parts with
          | [key, value] =>
            match specLookup FILE_HEADERS key with
            | Option.none => .error (.lvmError ("Invalid File Header: " ++ key))
            | some fs =>
              match fetchStr hdr "Decimal_Separator" with
              | .error e => .error e
              | .ok decsep =>
                match parse_value value (some fs.vtype) separator decsep with
                | .error e => .error e
                | .ok data =>
                  if data == Scalar.none then
                    .error (.lvmError ("Error parsing value at:\n" ++ line))
                  else
                    rfhLoop fuel separator (setA hdr key (PyVal.scalar data)) rest
          | _ =>
            .error (.lvmError ("Error parsing key,value pair from '" ++
              pyReprStrList parts ++ "'"))

/-- `lvm_read.read_file_header` (`lvm_read.py:363-430`): pre-scan for the
separator declaration, replay the buffered lines followed by the live ones,
demand the magic identifier on the first line, then run the header loop.
The first `next(lines)` on an exhausted sequence is Python's
`StopIteration`. -/
def read_file_header (lines : List String) : Except PyErr (PyDict × List String) :=
  match get_separator lines with
  | .error e => .error e
  | .ok (separator, buffer, rem) =>
    match buffer ++ rem with
    | [] => .error .stopIteration
    | identifier :: rest =>
      if ¬ pyStartsWith identifier FILE_MAGIC_IDENTIFIER then
        .error (.lvmError ("Did not find magic identifier " ++
          FILE_MAGIC_IDENTIFIER ++ " at start of file"))
      else
        rfhLoop (rest.length + 1) separator (initHeaders FILE_HEADERS) rest

/-! The segment-header reader. -/

/-- Coerce the value tokens of a segment-header line: each non-empty token is
passed through `parse_value` (whose exceptions propagate); empty tokens are
dropped (`lvm_read.py:311-313`).  Failed coercions that return Python `None`
are kept in the list. -/
def coerceValues (values : List String) (vtype : Option String) (sep decsep : String) :
    Except PyErr (List Scalar) :=
  match values with
  | [] => .ok []
  | v :: vs =>
    if v ≠ "" then
      match parse_value v vtype sep decsep with
      | .error e => .error e
      | .ok d =>
        match coerceValues vs vtype sep decsep with
        | .error e => .error e
        | .ok ds => .ok (d :: ds)
    else coerceValues vs vtype sep decsep

/-- The test `'Channels' in seg_header and len(data) == seg_header['Channels']`
(`lvm_read.py:319`). -/
def channelsEq (hdr : PyDict) (n : Nat) : Bool :=
  match getA hdr "Channels" with
  | some v => pyEqLen n v
  | Option.none => false

/-- The channel-count mismatch message of `lvm_read.py:322-326`. -/
def mismatchMsg (hdr : PyDict) (key : String) (data : List Scalar) : String :=
  "Mismatch between number of Channels (" ++
  (match getA hdr "Channels" with
   | some v => pyStrVal v
   | Option.none => "Not Found") ++
  ") and header " ++ key ++ " data " ++ pyReprList data ++
  " (" ++ toString data.length ++ ")"

/-- The loop of `lvm_read.read_segment_header` (`lvm_read.py:275-335`).
`segStarted` mirrors the source's `seg_started` flag, which is initialised to
`False` at `lvm_read.py:273` and never assigned afterwards, so the
final `raise LVMFormatError("Failed to parse segment header")` at
`lvm_read.py:335` is dead code.  `fuel` strictly exceeds the number of
remaining lines, so its branch is unreachable.  Returns the header (or
nothing at end of input) and the remaining lines. -/
def rshLoop (fuel : Nat) (fh : PyDict) (segStarted : Bool) (hdr : PyDict)
    (lines : List String) : Except PyErr (Option PyDict × List String) :=
  match fuel with
  | 0 => .error (.lvmError "loop fuel exhausted")
  | fuel + 1 =>
    match lines with
    | [] =>
      if ¬ segStarted then .ok (Option.none, [])
      else .error (.lvmError "Failed to parse segment header")
    | rawLine :: rest =>
      let line := stripNl rawLine
      if pyStartsWith line END_OF_HEADER then
        match validate_header hdr SEGMENT_HEADERS with
        | .error e => .error e
        | .ok _ =>
          match rest with
          | [] => .error .stopIteration
          | cnRaw :: rest2 =>
            let columnNames := stripNl cnRaw
            if ¬ pyStartsWith columnNames "X_Value" then
              .error (.lvmError "Failed to read column names")
            else
              match fetchStr fh "Separator" with
              | .error e => .error e
              | .ok sep =>
                match pySplit columnNames sep with
                | .error e => .error e
                | .ok cols =>
                  let hdr1 := setA hdr "Columns" (PyVal.list (cols.map Scalar.str))
                  let yLabels := cols.filter
                    (fun c => ¬ (c = "X_Value" ∨ c = "Comment"))
                  let hdr2 := setA hdr1 "Y_Labels" (PyVal.list (yLabels.map Scalar.str))
                  .ok (some hdr2, rest2)
      else
        match fetchStr fh "Separator" with
        | .error e => .error e
        | .ok sep =>
          if pyStartsWith line sep || line == "" then
            rshLoop fuel fh segStarted hdr rest
          else if pyStartsWith line SPECIAL_BLOCK_START then
            rshLoop fuel fh segStarted hdr (skip_special_block rest)
          else
            match pySplit line sep with
            | .error e => .error e
            | .ok parts =>
              match parts with
              | [] => .error (.valueError "unreachable: split is never empty")
              | key :: values =>
                match specLookup SEGMENT_HEADERS key with
                | Option.none => .error (.lvmError ("Invalid File Header: " ++ key))
                | some fs =>
                  match fetchStr fh "Decimal_Separator" with
                  | .error e => .error e
                  | .ok decsep =>
                    match coerceValues values (some fs.vtype) sep decsep with
                    | .error e => .error e
                    | .ok data =>
                      match data with
                      | [] => .error (.lvmError ("Error parsing value at:\n" ++ line))
                      | [d] =>
                        rshLoop fuel fh segStarted
                          (setA hdr key (PyVal.scalar d)) rest
                      | _ :: _ :: _ =>
                        if channelsEq hdr data.length then
                          rshLoop fuel fh segStarted
                            (setA hdr key (PyVal.list data)) rest
                        else
                          .error (.lvmError (mismatchMsg hdr key data))

/-- `lvm_read.read_segment_header` (`lvm_read.py:262-335`): defaults, then the
line loop. -/
def read_segment_header (lines : List String) (fh : PyDict) :
    Except PyErr (Option PyDict × List String) :=
  rshLoop (lines.length + 1) fh false (initHeaders SEGMENT_HEADERS) lines

/-! The segment-data reader. -/

/-- One channel of segment data: the X list and the Y list (`[[x...],[y...]]`). -/
abbrev Chan := List Scalar × List Scalar

/-- The per-channel X/Y computation of one data row
(`lvm_read.py:228-238`), for channel `i`.  In `One` mode the shared
`x_value` was computed before the channel loop and is passed as `xOne`; in
`Multi` mode both come from the row; in `No` mode the X value is
`x0[i] + seg_header['Delta_X'][i] * sample` with Python's indexing and
arithmetic (a scalar `x0` or `Delta_X` is not subscriptable).  Any other
`X_Columns` value leaves `y_value` unassigned, a Python `NameError` at the
`if y_value == None` test. -/
def chanVals (xcolsV : PyVal) (values : List String) (decsep : String)
    (sh : PyDict) (x0 : PyVal) (sample : Nat) (xOne : Scalar) (i : Nat) :
    Except PyErr (Scalar × Scalar) :=
  if pyEqStr xcolsV "One" then
    match listIdx values (i + 1) with
    | .error e => .error e
    | .ok v => .ok (xOne, scalarOfFloat (_lvm_float v decsep))
  else if pyEqStr xcolsV "Multi" then
    match listIdx values (i * 2) with
    | .error e => .error e
    | .ok vx =>
      match listIdx values (i * 2 + 1) with
      | .error e => .error e
      | .ok vy =>
        .ok (scalarOfFloat (_lvm_float vx decsep), scalarOfFloat (_lvm_float vy decsep))
  else if pyEqStr xcolsV "No" then
    match pyIndex x0 i with
    | .error e => .error e
    | .ok xi =>
      match fetchV sh "Delta_X" with
      | .error e => .error e
      | .ok dxv =>
        match pyIndex dxv i with
        | .error e => .error e
        | .ok dxi =>
          match pyMul dxi (Scalar.int sample) with
          | .error e => .error e
          | .ok prod =>
            match pyAdd xi prod with
            | .error e => .error e
            | .ok x =>
              match listIdx values (i + 1) with
              | .error e => .error e
              | .ok vy => .ok (x, scalarOfFloat (_lvm_float vy decsep))
  else .error (.nameError "name 'y_value' is not defined")

/-- The channel loop of one data row (`lvm_read.py:228-245`): for channel `i`
compute (x, y); a `None` Y value contributes nothing to that channel
(`continue`), otherwise both the X and the Y value are appended. -/
def procChannels (xcolsV : PyVal) (values : List String) (decsep : String)
    (sh : PyDict) (x0 : PyVal) (sample : Nat) (xOne : Scalar) :
    Nat → List Chan → Except PyErr (List Chan)
  | _, [] => .ok []
  | i, ch :: chs =>
    match chanVals xcolsV values decsep sh x0 sample xOne i with
    | .error e => .error e
    | .ok (x, y) =>
      match procChannels xcolsV values decsep sh x0 sample xOne (i + 1) chs with
      | .error e => .error e
      | .ok chs' =>
        .ok ((if y = Scalar.none then ch else (ch.1 ++ [x], ch.2 ++ [y])) :: chs')

/-- The row loop of `lvm_read.read_segment_data` (`lvm_read.py:211-252`).
`curLine` is the line fetched by the last `next(lines, None)` (already
consumed from the iterator: on exit it is simply dropped, exactly as the
source discards its lookahead); `rest` is what the iterator still holds.  The
loop condition is evaluated in source order: the `sample < max_samples`
comparison runs first (and can raise), then the line tests.  On exhausted
input before the sample count is reached, `EOF before finished segment`
(`lvm_read.py:254-255`).  `fuel` strictly exceeds the number of remaining
lines plus one, so its branch is unreachable. -/
def rsdLoop (fuel : Nat) (fh sh : PyDict) (xcolsV : PyVal) (decsep : String)
    (nChan : Nat) (x0 : PyVal) (maxS : Scalar) (sample : Nat)
    (chans : List Chan) (comments : List String)
    (curLine : Option String) (rest : List String) :
    Except PyErr (Option (List Chan × List String) × List String) :=
  match fuel with
  | 0 => .error (.lvmError "loop fuel exhausted")
  | fuel + 1 =>
    match pyLtNat sample maxS with
    | .error e => .error e
    | .ok cont =>
      match curLine with
      | Option.none =>
        if pyNeNat sample maxS then .error (.lvmError "EOF before finished segment")
        else .ok (some (chans, comments), rest)
      | some l =>
        if ¬ cont then .ok (some (chans, comments), rest)
        else if l == "\n" || l == "\r\n" || l == "" then
          .ok (some (chans, comments), rest)
        else
          let line := stripNl l
          match fetchStr fh "Separator" with
          | .error e => .error e
          | .ok sep =>
            match pySplit line sep with
            | .error e => .error e
            | .ok values =>
              let xOne : Scalar :=
                if pyEqStr xcolsV "One" then
                  scalarOfFloat (_lvm_float (values.headD "") decsep)
                else Scalar.none
              let columns : Nat :=
                if pyEqStr xcolsV "Multi" then nChan * 2 else nChan + 1
              match procChannels xcolsV values decsep sh x0 sample xOne 0 chans with
              | .error e => .error e
              | .ok chans' =>
                let comment :=
                  if columns < values.length then values.getD columns "" else ""
                rsdLoop fuel fh sh xcolsV decsep nChan x0 maxS (sample + 1)
                  chans' (comments ++ [comment]) rest.head? rest.tail

/-- `lvm_read.read_segment_data` (`lvm_read.py:176-260`): fetch the controlling
header entries in source order, build the empty channels, default `x0` from
the segment header, signal "no data" when the input is already exhausted,
take `max(samples)`, and run the row loop.  (The trailing
`for ch in seg_data: ch = [...]` of the source rebinds a local and has no
effect, so it is not modelled.)  Returns the optional (channels, comments)
pair and the remaining lines. -/
def read_segment_data (lines : List String) (fh sh : PyDict)
    (x0arg : Option PyVal) :
    Except PyErr (Option (List Chan × List String) × List String) :=
  match fetchV sh "Samples" with
  | .error e => .error e
  | .ok samples =>
    match fetchV fh "X_Columns" with
    | .error e => .error e
    | .ok xcolsV =>
      match fetchStr fh "Decimal_Separator" with
      | .error e => .error e
      | .ok decsep =>
        match fetchV sh "Channels" with
        | .error e => .error e
        | .ok chV =>
          match pyRangeLen chV with
          | .error e => .error e
          | .ok nChan =>
            let chans0 : List Chan := List.replicate nChan ([], [])
            let x0E : Except PyErr PyVal :=
              match x0arg with
              | some v => .ok v
              | Option.none => fetchV sh "X0"
            match x0E with
            | .error e => .error e
            | .ok x0 =>
              match lines with
              | [] => .ok (Option.none, [])
              | l :: rest =>
                match pyMax samples with
                | .error e => .error e
                | .ok maxS =>
                  rsdLoop (rest.length + 2) fh sh xcolsV decsep nChan x0 maxS 0
                    chans0 [] (some l) rest

/-- A parsed segment: header, per-channel data, per-row comments
(the dict built at `lvm_read.py:357-361`). -/
structure Segment where
  header : PyDict
  data : List Chan
  comments : List String
  deriving DecidableEq, Repr

/-- `lvm_read.read_segment` (`lvm_read.py:337-361`): read a fresh segment
header when none is held or multi-heading mode is on; a missing header means
no more segments; then read the data, `None` data also meaning no more
segments. -/
def read_segment (lines : List String) (fh : PyDict) (segHdr : Option PyDict)
    (x0 : Option PyVal) : Except PyErr (Option Segment × List String) :=
  let needHeader : Except PyErr Bool :=
    match segHdr with
    | Option.none => .ok true
    | some _ =>
      match fetchV fh "Multi_Headings" with
      | .error e => .error e
      | .ok mh => .ok (pyTruthy mh)
  match needHeader with
  | .error e => .error e
  | .ok nh =>
    let hdrRes : Except PyErr (Option PyDict × List String) :=
      if nh then read_segment_header lines fh
      else .ok (segHdr, lines)
    match hdrRes with
    | .error e => .error e
    | .ok (Option.none, rest) => .ok (Option.none, rest)
    | .ok (some hdr, rest) =>
      match read_segment_data rest fh hdr x0 with
      | .error e => .error e
      | .ok (Option.none, rest2) => .ok (Option.none, rest2)
      | .ok (some (dat, comments), rest2) =>
        .ok (some (Segment.mk hdr dat comments), rest2)

/-- The parse result: file header plus the ordered segments
(`lvm_data` of `lvm_read.read_lines`). -/
structure LvmData where
  file_header : PyDict
  segments : List Segment
  deriving DecidableEq, Repr

/-- The per-channel continuation values of `lvm_read.py:450-452`:
`ch[0][-1] if ch[0] else x0` zipped over the segment's channels and its
header's `X0`.  Zipping against a non-list `X0` is Python's `TypeError`
(`zip` argument not iterable). -/
def pyZipX0 (chans : List Chan) (x0v : PyVal) : Except PyErr (List Scalar) :=
  match x0v with
  | .list xs =>
    .ok (List.zipWith
      (fun ch x =>
        match ch.1.getLast? with
        | some v => v
        | Option.none => x)
      chans xs)
  | .scalar _ => .error (.typeError "zip argument #2 must support iteration")

/-- The segment loop of `lvm_read.read_lines` (`lvm_read.py:448-453`): append
the segment, compute the continuation X values from its data and its header's
`X0`, and read the next segment with the held header.  Each executed
iteration consumes at least one line, so the fuel branch is unreachable. -/
def rlLoop (fuel : Nat) (fh : PyDict) (acc : List Segment)
    (segOpt : Option Segment) (lines : List String) :
    Except PyErr (List Segment) :=
  match segOpt with
  | Option.none => .ok acc
  | some seg =>
    match fuel with
    | 0 => .error (.lvmError "loop fuel exhausted")
    | fuel + 1 =>
      match fetchV seg.header "X0" with
      | .error e => .error e
      | .ok x0v =>
        match pyZipX0 seg.data x0v with
        | .error e => .error e
        | .ok xf =>
          match read_segment lines fh (some seg.header) (some (PyVal.list xf)) with
          | .error e => .error e
          | .ok (seg', lines') => rlLoop fuel fh (acc ++ [seg]) seg' lines'

/-- `lvm_read.read_lines` (`lvm_read.py:432-455`): file header, first segment,
then the segment loop threading each segment's final X values forward. -/
def read_lines (lines : List String) : Except PyErr LvmData :=
  match read_file_header lines with
  | .error e => .error e
  | .ok (fh, rest) =>
    match read_segment rest fh Option.none Option.none with
    | .error e => .error e
    | .ok (seg0, rest0) =>
      match rlLoop (rest0.length + 1) fh [] seg0 rest0 with
      | .error e => .error e
      | .ok segs => .ok (LvmData.mk fh segs)

/-! Concrete inputs and projections used by the theorems below. -/

/-- Scenario A of the specification: minimal single-segment single-channel
file, header declaring only `Date`, `Time`, `Writer_Version` (no `Separator`
line), one segment with `Channels=1, Samples=3, X0=0, Delta_X=1` and three
tab-separated data rows. -/
def scenA : List String :=
  [ "LabVIEW Measurement\t\n",
    "Date\t2020/01/01\n",
    "Time\t12:00:00\n",
    "Writer_Version\t2.0\n",
    "***End_of_Header***\t\n",
    "Channels\t1\n",
    "Samples\t3\n",
    "Date\t2020/01/01\n",
    "Time\t12:00:00\n",
    "X0\t0\n",
    "Delta_X\t1\n",
    "***End_of_Header***\t\n",
    "X_Value\tVoltage\tComment\n",
    "0\t1.0\n",
    "1\t2.0\n",
    "2\t3.0\n" ]

/-- Scenario A with an explicit `Separator` declaration added, so that the
file-header phase succeeds. -/
def scenA2 : List String :=
  [ "LabVIEW Measurement\t\n", "Separator\t\n" ] ++ scenA.tail

/-- A file whose header declares `Date` and `Time` but no `Writer_Version`. -/
def linesC2 : List String :=
  [ "LabVIEW Measurement\t\n",
    "Separator\t\n",
    "Date\t2020/01/01\n",
    "Time\t12:00:00\n",
    "***End_of_Header***\t\n" ]

/-- A minimal file header providing what the segment readers consult. -/
def fhMini : PyDict :=
  [ ("Separator", PyVal.scalar (.str "\t")),
    ("Decimal_Separator", PyVal.scalar (.str ",")) ]

/-- Segment-header lines in which the `Samples\tabc` line has one non-empty
token whose integer coercion fails (stored Python `None`), later overwritten
by a well-formed `Samples` line. -/
def linesC6 : List String :=
  [ "Channels\t1\n", "Samples\tabc\n", "Samples\t3\n", "Date\t2020/01/01\n",
    "Time\t12:00:00\n", "X0\t0\n", "Delta_X\t1\n",
    "***End_of_Header***\t\n", "X_Value\tComment\n" ]

/-- The header of a successful `read_segment_header` result (empty dict on any
other outcome). -/
def shResultHdr (r : Except PyErr (Option PyDict × List String)) : PyDict :=
  match r with
  | .ok (some h, _) => h
  | _ => []

/-- The segment header parsed from `linesC6`. -/
def hdrC6 : PyDict := shResultHdr (read_segment_header linesC6 fhMini)

/-- A two-channel, two-segment file (`Multi_Headings` defaulting to false)
whose `X0` is declared with a single value and therefore stored as a scalar. -/
def linesB : List String :=
  [ "LabVIEW Measurement\t\n",
    "Separator\t\n",
    "Date\t2020/01/01\n",
    "Time\t12:00:00\n",
    "Writer_Version\t2.0\n",
    "***End_of_Header***\t\n",
    "Channels\t2\n",
    "Samples\t3\t3\n",
    "Date\t2020/01/01\t2020/01/01\n",
    "Time\t12:00:00\t12:00:00\n",
    "X0\t0\n",
    "Delta_X\t1\t1\n",
    "***End_of_Header***\t\n",
    "X_Value\tV1\tV2\tComment\n",
    "0\t1.0\t2.0\n",
    "1\t2.0\t3.0\n",
    "2\t3.0\t4.0\n" ]

/-- A well-formed two-channel `X_Columns=No` file with per-channel `X0=[10,100]`
and `Delta_X=[5,5]`, two segments separated by a blank line, the second
segment inheriting the first's header (`Multi_Headings` false). -/
def linesG : List String :=
  [ "LabVIEW Measurement\t\n",
    "Separator\t\n",
    "X_Columns\tNo\n",
    "Date\t2020/01/01\n",
    "Time\t12:00:00\n",
    "Writer_Version\t2.0\n",
    "***End_of_Header***\t\n",
    "Channels\t2\n",
    "Samples\t2\t2\n",
    "Date\t2020/01/01\t2020/01/01\n",
    "Time\t12:00:00\t12:00:00\n",
    "X0\t10\t100\n",
    "Delta_X\t5\t5\n",
    "***End_of_Header***\t\n",
    "X_Value\tV1\tV2\tComment\n",
    "\t1.0\t2.0\n",
    "\t2.0\t3.0\n",
    "\n",
    "\t3.0\t4.0\n",
    "\t4.0\t5.0\n" ]

/-- The X lists of every channel of segment `i` of a parse result. -/
def segXsAt (r : Except PyErr LvmData) (i : Nat) : Option (List (List Scalar)) :=
  match r with
  | .ok d => (d.segments.get? i).map (fun s => s.data.map (fun ch => ch.1))
  | .error _ => Option.none

/-- The `X0` entry of the header of segment `i` of a parse result. -/
def segX0At (r : Except PyErr LvmData) (i : Nat) : Option PyVal :=
  match r with
  | .ok d =>
    match (d.segments.get? i).map (fun s => getA s.header "X0") with
    | some v => v
    | Option.none => Option.none
  | .error _ => Option.none

/-- A valid file whose header block contains a line beginning with the
delimiter. -/
def linesK : List String :=
  [ "LabVIEW Measurement\t\n",
    "Separator\t\n",
    "\tpadding\n",
    "Date\t2020/01/01\n",
    "Time\t12:00:00\n",
    "Writer_Version\t2.0\n",
    "***End_of_Header***\t\n" ]

/-- The same file with the delimiter-led line replaced by a blank line. -/
def linesL : List String :=
  [ "LabVIEW Measurement\t\n",
    "Separator\t\n",
    "\n",
    "Date\t2020/01/01\n",
    "Time\t12:00:00\n",
    "Writer_Version\t2.0\n",
    "***End_of_Header***\t\n" ]

/-- Whether a result is a success. -/
def exceptIsOk : Except PyErr (PyDict × List String) → Bool
  | .ok _ => true
  | .error _ => false

/-- The header of a successful `read_file_header` result (empty dict on
error). -/
def fhResultHdr (r : Except PyErr (PyDict × List String)) : PyDict :=
  match r with
  | .ok (h, _) => h
  | .error _ => []

/-- The file header parsed from `linesK`. -/
def fhK : PyDict := fhResultHdr (read_file_header linesK)

/-- A file header for the segment-data reader: tab separator, comma decimal
separator, one shared X column. -/
def fh10 : PyDict :=
  [ ("Separator", PyVal.scalar (.str "\t")),
    ("Decimal_Separator", PyVal.scalar (.str ",")),
    ("X_Columns", PyVal.scalar (.str "One")) ]

/-- A two-channel segment header with two samples per channel. -/
def sh10 : PyDict :=
  [ ("Channels", PyVal.scalar (.int 2)),
    ("Samples", PyVal.list [.int 2, .int 2]),
    ("X0", PyVal.list [.int 0, .int 0]),
    ("Delta_X", PyVal.list [.int 1, .int 1]) ]

/-- Two data rows; in the second the first channel's Y cell is empty, so that
channel receives neither an X nor a Y value there. -/
def lines10 : List String :=
  [ "0\t1.0\t2.0\n", "1\t\t4.0\n" ]

/-- The channels read from `lines10` (empty on any other outcome). -/
def dat10 : List Chan :=
  match read_segment_data lines10 fh10 sh10 Option.none with
  | .ok (some (d, _), _) => d
  | _ => []

/-- The comments read from `lines10` (empty on any other outcome). -/
def com10 : List String :=
  match read_segment_data lines10 fh10 sh10 Option.none with
  | .ok (some (_, c), _) => c
  | _ => []

/-- The lines remaining after reading `lines10` (empty on any other
outcome). -/
def rem10 : List String :=
  match read_segment_data lines10 fh10 sh10 Option.none with
  | .ok (_, r) => r
  | _ => []

/-- Boolean check that every channel's X and Y lists have the same length. -/
def lockstepB (chans : List Chan) : Bool :=
  chans.all (fun ch => ch.1.length == ch.2.length)

/-- The escape sequence for delimiter `c` with uppercase hex digits: a
backslash followed by `hex(ord(c))[2:].upper()` (the spec's "backslash
followed by the hexadecimal code of the delimiter byte"). -/
def escU (c : Char) : List Char :=
  '\\' :: ((natToHex c.toNat).map Char.toUpper)

/-- The same escape sequence with lowercase hex digits. -/
def escL (c : Char) : List Char :=
  '\\' :: ((natToHex c.toNat).map Char.toLower)

/-! Helper lemmas. -/

theorem getA_setA_self (m : PyDict) (k : String) (v : PyVal) :
    getA (setA m k v) k = some v := by
  induction m with
  | nil => simp [setA, getA]
  | cons p rest ih =>
    obtain ⟨k', v'⟩ := p
    simp only [setA]
    by_cases h : k' == k
    · simp [h, getA]
    · simp [getA, h, ih]

theorem get_separator_len (ls : List String) (s : String) (buf rem : List String)
    (h : get_separator ls = .ok (s, buf, rem)) : s.length = 1 := by
  induction ls generalizing buf rem with
  | nil => simp [get_separator] at h
  | cons l rest ih =>
    rw [get_separator] at h
    split at h
    · split at h
      · simp only [Except.ok.injEq, Prod.mk.injEq] at h
        obtain ⟨h1, -, -⟩ := h
        subst h1
        rfl
      · simp at h
    · split at h
      · simp only [Except.ok.injEq, Prod.mk.injEq] at h
        obtain ⟨h1, -, -⟩ := h
        subst h1
        rfl
      · split at h
        · next s' buf' rem' heq =>
          simp only [Except.ok.injEq, Prod.mk.injEq] at h
          obtain ⟨h1, -, -⟩ := h
          subst h1
          exact ih _ _ heq
        · simp at h

theorem rfhLoop_sets_separator (fuel : Nat) (sep : String) (hdr : PyDict)
    (lines : List String) (fh : PyDict) (rest : List String)
    (h : rfhLoop fuel sep hdr lines = .ok (fh, rest)) :
    getA fh "Separator" = some (PyVal.scalar (.str sep)) := by
  induction fuel generalizing hdr lines fh rest with
  | zero => simp [rfhLoop] at h
  | succ fuel ih =>
    match lines with
    | [] => simp [rfhLoop] at h
    | rawLine :: rest' =>
      rw [rfhLoop] at h
      split at h
      · -- end-of-header branch: the result sets the Separator entry
        split at h
        · simp at h
        · simp only [Except.ok.injEq, Prod.mk.injEq] at h
          obtain ⟨h1, -⟩ := h
          subst h1
          exact getA_setA_self ..
      · split at h
        · exact ih _ _ _ _ h
        · split at h
          · exact ih _ _ _ _ h
          · split at h
            · simp at h
            · split at h
              · split at h
                · simp at h
                · split at h
                  · simp at h
                  · split at h
                    · simp at h
                    · split at h
                      · simp at h
                      · exact ih _ _ _ _ h
              · simp at h

/-- C5: `get_separator` returns the single character immediately following the
literal token `Separator` on the first line beginning with that token; returns
the tab default if the end-of-header marker is reached before such a line;
raises an `LVMFormatError` if the input exhausts with neither found; and after
`read_file_header` returns, the header's `Separator` entry is that single
literal delimiter character (a one-character string), never the textual
declaration line. -/
theorem c5_separator_detection :
    (∀ (pre : List String) (line : String) (post : List String) (c : Char),
      (∀ l ∈ pre, pyStartsWith l "Separator" = false ∧
        pyStartsWith l END_OF_HEADER = false) →
      pyStartsWith line "Separator" = true →
      line.toList.get? 9 = some c →
      get_separator (pre ++ line :: post) = .ok (String.singleton c, pre, post)) ∧
    (∀ (pre : List String) (line : String) (post : List String),
      (∀ l ∈ pre, pyStartsWith l "Separator" = false ∧
        pyStartsWith l END_OF_HEADER = false) →
      pyStartsWith line "Separator" = false →
      pyStartsWith line END_OF_HEADER = true →
      get_separator (pre ++ line :: post) = .ok ("\t", pre, post)) ∧
    (∀ ls : List String,
      (∀ l ∈ ls, pyStartsWith l "Separator" = false ∧
        pyStartsWith l END_OF_HEADER = false) →
      get_separator ls = .error (.lvmError "Unable to find Separator header")) ∧
    (∀ (ls : List String) (fh : PyDict) (rest : List String),
      read_file_header ls = .ok (fh, rest) →
      ∃ (s : String) (buf rem : List String),
        get_separator ls = .ok (s, buf, rem) ∧ s.length = 1 ∧
        getA fh "Separator" = some (PyVal.scalar (.str s))) := by
  refine ⟨?_, ?_, ?_, ?_⟩
  · intro pre line post c hpre hsep hc
    induction pre with
    | nil =>
      rw [List.nil_append, get_separator, hsep, hc]
      simp
    | cons l pre' ih =>
      have hl := hpre l (List.mem_cons_self ..)
      rw [List.cons_append, get_separator, hl.1, hl.2,
        ih (fun x hx => hpre x (List.mem_cons_of_mem _ hx))]
      simp
  · intro pre line post hpre hsep hend
    induction pre with
    | nil =>
      rw [List.nil_append, get_separator, hsep, hend]
      simp
    | cons l pre' ih =>
      have hl := hpre l (List.mem_cons_self ..)
      rw [List.cons_append, get_separator, hl.1, hl.2,
        ih (fun x hx => hpre x (List.mem_cons_of_mem _ hx))]
      simp
  · intro ls hls
    induction ls with
    | nil => rfl
    | cons l rest ih =>
      have hl := hls l (List.mem_cons_self ..)
      rw [get_separator, hl.1, hl.2,
        ih (fun x hx => hls x (List.mem_cons_of_mem _ hx))]
      simp
  · intro ls fh rest h
    rw [read_file_header] at h
    cases heq : get_separator ls with
    | error e =>
      rw [heq] at h
      simp at h
    | ok t =>
      obtain ⟨sep, buf, rem⟩ := t
      rw [heq] at h
      refine ⟨sep, buf, rem, rfl, get_separator_len _ _ _ _ heq, ?_⟩
      dsimp only at h
      split at h
      · simp at h
      · split at h
        · simp at h
        · exact rfhLoop_sets_separator _ _ _ _ _ _ h

/-- Witness for C5 at concrete inputs: a comma declared on a `Separator` line
is found after one buffered line; the end-of-header marker yields the tab
default; exhaustion raises; and the file header parsed from `linesK` carries a
one-character `Separator` entry. -/
theorem c5_separator_detection_witness :
    get_separator ["x\n", "Separator,\n"] = .ok (",", ["x\n"], []) ∧
    get_separator ["x\n", "***End_of_Header***\n"] = .ok ("\t", ["x\n"], []) ∧
    get_separator ["x\n"] = .error (.lvmError "Unable to find Separator header") ∧
    ∃ (s : String) (buf rem : List String),
      get_separator linesK = .ok (s, buf, rem) ∧ s.length = 1 ∧
      getA fhK "Separator" = some (PyVal.scalar (.str s)) := by
  refine ⟨?_, ?_, ?_, ?_⟩
  · exact c5_separator_detection.1 ["x\n"] "Separator,\n" [] ','
      (by decide) (by decide) (by decide)
  · exact c5_separator_detection.2.1 ["x\n"] "***End_of_Header***\n" []
      (by decide) (by decide) (by decide)
  · exact c5_separator_detection.2.2.1 ["x\n"] (by decide)
  · exact c5_separator_detection.2.2.2 linesK fhK [] (by rfl)

/-- C1: the code fails on Scenario A rather than producing the specified
parse.  On the scenario file itself `get_separator` consumes the first
end-of-header marker without buffering it, so the header loop runs into the
segment lines and raises `Invalid File Header: Channels`; with the `Separator`
declaration added so that the file header parses, the single-channel
`Samples=3` entry is stored as a scalar int and `max(samples)` raises
`TypeError: 'int' object is not iterable` instead of yielding one segment with
X = [0, 1, 2] and Y = [1.0, 2.0, 3.0]. -/
theorem c1_scenario_a_crashes :
    read_lines scenA = .error (.lvmError "Invalid File Header: Channels") ∧
    read_lines scenA2 = .error (.typeError "'int' object is not iterable") := by
  constructor
  · rfl
  · rfl

/-- C2: a required schema field that never received a value does not produce
the `LVMFormatError` naming the field: the header dict is initialised only
with the non-required defaults, so `validate_header`'s `headers[h]` lookup
raises a bare `KeyError` instead.  Shown on `validate_header` directly and on
`read_file_header` over a file whose header declares `Date` and `Time` but no
`Writer_Version`. -/
theorem c2_missing_required_field_keyerror :
    validate_header
      (setA (setA (initHeaders FILE_HEADERS)
        "Date" (PyVal.scalar (.date 2020 1 1)))
        "Time" (PyVal.scalar (.time 12 0 0 0)))
      FILE_HEADERS = .error (.keyError "Writer_Version") ∧
    read_file_header linesC2 = .error (.keyError "Writer_Version") := by
  constructor
  · rfl
  · rfl

/-- C3: when the input ends with no segment-header content consumed,
`read_segment_header` does return the "no further segments" signal; but when
it ends after partial header content (a consumed `Channels` line) it also
returns that same signal instead of raising the truncated-header error,
because `seg_started` is never set to `True` and the raise at
`lvm_read.py:335` is dead code. -/
theorem c3_truncated_header_not_fatal :
    read_segment_header ([] : List String) fhMini = .ok (Option.none, []) ∧
    read_segment_header ["Channels\t1\n"] fhMini = .ok (Option.none, []) := by
  constructor
  · rfl
  · rfl

/-- C4: coercing an empty token with type tag `number` does not yield "no
value": `_lvm_float` returns Python `None` and the `.is_integer()` call on it
raises `AttributeError`; the `integer` and `float` tags do yield no value. -/
theorem c4_empty_numeric_token :
    parse_value "" (some "number") "\t" "," =
      .error (.attributeError "'NoneType' object has no attribute 'is_integer'") ∧
    parse_value "" (some "integer") "\t" "," = .ok Scalar.none ∧
    parse_value "" (some "float") "\t" "," = .ok Scalar.none := by
  refine ⟨?_, ?_, ?_⟩
  · rfl
  · rfl
  · rfl

/-- C7: on `linesB` (two channels, `X0` declared with a single value and hence
stored as a scalar) the orchestrator crashes computing the continuation values
(`zip` over the scalar `X0`) instead of invoking the data reader for the
second segment; on the well-formed `linesG` (per-channel `X0 = [10, 100]`,
`Delta_X = [5, 5]`, `X_Columns = No`, `Multi_Headings` false) the second
segment's X values [[15, 20], [105, 110]] continue from the first segment's
last emitted values [15, 105], not from the header's `X0`, which still reads
[10, 100]. -/
theorem c7_x_continuation :
    read_lines linesB = .error (.typeError "zip argument #2 must support iteration") ∧
    segXsAt (read_lines linesG) 0 =
      some [[.int 10, .int 15], [.int 100, .int 105]] ∧
    segXsAt (read_lines linesG) 1 =
      some [[.int 15, .int 20], [.int 105, .int 110]] ∧
    segX0At (read_lines linesG) 1 = some (PyVal.list [.int 10, .int 100]) := by
  refine ⟨?_, ?_, ?_, ?_⟩
  · rfl
  · rfl
  · rfl
  · rfl

/-- C8: during file-header parsing a line beginning with the delimiter is
skipped, but a blank line is not: the loop's only skip test is
`line.startswith(separator)`, so the stripped empty line falls through to the
key/value split and raises `Error parsing key,value pair`. -/
theorem c8_blank_line_not_skipped :
    exceptIsOk (read_file_header linesK) = true ∧
    read_file_header linesL =
      .error (.lvmError "Error parsing key,value pair from '['']'") := by
  constructor
  · rfl
  · rfl

/-- C6 counterexample: the claim's "if zero values coerce successfully it is a
fatal format error" is false.  In `linesC6` the line `Samples\tabc` has one
non-empty token whose integer coercion fails (Python `None`); no error is
raised, the `None` is stored as a scalar and later overwritten, and the whole
segment header parses successfully with `Samples = 3`. -/
theorem c6_counterexample :
    read_segment_header linesC6 fhMini = .ok (some hdrC6, []) ∧
    getA hdrC6 "Samples" = some (PyVal.scalar (.int 3)) := by
  constructor
  · rfl
  · rfl

/-- C9 counterexample: for the tab delimiter the code's escape pattern is
`hex(9)[2:] = "9"`, one digit, so the two-digit escape `\09` required by the
claim is not decoded (the field passes through unchanged), while the one-digit
escape `\9` is. -/
theorem c9_counterexample :
    parse_value "\\09" (some "text") "\t" "," = .ok (.str "\\09") ∧
    parse_value "\\9" (some "text") "\t" "," = .ok (.str "\t") := by
  constructor
  · rfl
  · rfl

theorem procChannels_lockstep (xcolsV : PyVal) (values : List String)
    (decsep : String) (sh : PyDict) (x0 : PyVal) (sample : Nat) (xOne : Scalar) :
    ∀ (i : Nat) (chans chans' : List Chan),
      procChannels xcolsV values decsep sh x0 sample xOne i chans = .ok chans' →
      (∀ ch ∈ chans, ch.1.length = ch.2.length) →
      (∀ ch ∈ chans', ch.1.length = ch.2.length) := by
  intro i chans
  induction chans generalizing i with
  | nil =>
    intro chans' h hinv
    simp only [procChannels, Except.ok.injEq] at h
    subst h
    simp
  | cons ch chs ih =>
    intro chans' h hinv
    simp only [procChannels] at h
    cases hcv : chanVals xcolsV values decsep sh x0 sample xOne i with
    | error e =>
      rw [hcv] at h
      simp at h
    | ok xy =>
      obtain ⟨x, y⟩ := xy
      rw [hcv] at h
      dsimp only at h
      cases hrec : procChannels xcolsV values decsep sh x0 sample xOne (i + 1) chs with
      | error e =>
        rw [hrec] at h
        simp at h
      | ok chs' =>
        rw [hrec] at h
        simp only [Except.ok.injEq] at h
        subst h
        intro c hc
        rcases List.mem_cons.mp hc with rfl | hmem
        · by_cases hy : y = Scalar.none
          · simpa [hy] using hinv ch (List.mem_cons_self ..)
          · have hch := hinv ch (List.mem_cons_self ..)
            simp [hy, hch]
        · exact ih (i + 1) chs' hrec
            (fun d hd => hinv d (List.mem_cons_of_mem _ hd)) c hmem

theorem rsdLoop_lockstep (fh sh : PyDict) (xcolsV : PyVal) (decsep : String)
    (nChan : Nat) (x0 : PyVal) (maxS : Scalar) :
    ∀ (fuel sample : Nat) (chans : List Chan) (comments : List String)
      (curLine : Option String) (rest : List String)
      (dat : List Chan) (com : List String) (rem : List String),
      rsdLoop fuel fh sh xcolsV decsep nChan x0 maxS sample chans comments
        curLine rest = .ok (some (dat, com), rem) →
      (∀ ch ∈ chans, ch.1.length = ch.2.length) →
      (∀ ch ∈ dat, ch.1.length = ch.2.length) := by
  intro fuel
  induction fuel with
  | zero =>
    intro sample chans comments curLine rest dat com rem h hinv
    simp [rsdLoop] at h
  | succ fuel ih =>
    intro sample chans comments curLine rest dat com rem h hinv
    rw [rsdLoop] at h
    cases hlt : pyLtNat sample maxS with
    | error e =>
      rw [hlt] at h
      simp at h
    | ok cont =>
      rw [hlt] at h
      cases curLine with
      | none =>
        dsimp only at h
        split at h
        · simp at h
        · simp only [Except.ok.injEq, Prod.mk.injEq, Option.some.injEq] at h
          obtain ⟨⟨h1, -⟩, -⟩ := h
          subst h1
          exact hinv
      | some l =>
        dsimp only at h
        split at h
        · simp only [Except.ok.injEq, Prod.mk.injEq, Option.some.injEq] at h
          obtain ⟨⟨h1, -⟩, -⟩ := h
          subst h1
          exact hinv
        · split at h
          · simp only [Except.ok.injEq, Prod.mk.injEq, Option.some.injEq] at h
            obtain ⟨⟨h1, -⟩, -⟩ := h
            subst h1
            exact hinv
          · cases hfs : fetchStr fh "Separator" with
            | error e =>
              rw [hfs] at h
              simp at h
            | ok sep =>
              rw [hfs] at h
              dsimp only at h
              cases hsp : pySplit (stripNl l) sep with
              | error e =>
                rw [hsp] at h
                simp at h
              | ok values =>
                rw [hsp] at h
                dsimp only at h
                cases hpc : procChannels xcolsV values decsep sh x0 sample
                    (if pyEqStr xcolsV "One" then
                      scalarOfFloat (_lvm_float (values.headD "") decsep)
                    else Scalar.none) 0 chans with
                | error e =>
                  rw [hpc] at h
                  simp at h
                | ok chans' =>
                  rw [hpc] at h
                  dsimp only at h
                  exact ih (sample + 1) chans' _ rest.head? rest.tail dat com rem h
                    (procChannels_lockstep _ _ _ _ _ _ _ _ _ _ hpc hinv)

/-- C10: for every segment the data reader returns, every channel's X and Y
sequences have equal length: a row whose Y value fails to coerce appends
neither an X nor a Y value for that channel, so the two sequences grow in
lockstep from the empty pair. -/
theorem c10_xy_lockstep (lines : List String) (fh sh : PyDict)
    (x0arg : Option PyVal) (dat : List Chan) (com : List String)
    (rem : List String)
    (h : read_segment_data lines fh sh x0arg = .ok (some (dat, com), rem)) :
    ∀ ch ∈ dat, ch.1.length = ch.2.length := by
  rw [read_segment_data.eq_def] at h
  cases h1 : fetchV sh "Samples" with
  | error e => rw [h1] at h; simp at h
  | ok samples =>
    rw [h1] at h
    dsimp only at h
    cases h2 : fetchV fh "X_Columns" with
    | error e => rw [h2] at h; simp at h
    | ok xcolsV =>
      rw [h2] at h
      dsimp only at h
      cases h3 : fetchStr fh "Decimal_Separator" with
      | error e => rw [h3] at h; simp at h
      | ok decsep =>
        rw [h3] at h
        dsimp only at h
        cases h4 : fetchV sh "Channels" with
        | error e => rw [h4] at h; simp at h
        | ok chV =>
          rw [h4] at h
          dsimp only at h
          cases h5 : pyRangeLen chV with
          | error e => rw [h5] at h; simp at h
          | ok nChan =>
            rw [h5] at h
            dsimp only at h
            split at h
            · simp at h
            · cases lines with
              | nil => simp at h
              | cons l rest =>
                dsimp only at h
                cases h6 : pyMax samples with
                | error e => rw [h6] at h; simp at h
                | ok maxS =>
                  rw [h6] at h
                  dsimp only at h
                  refine rsdLoop_lockstep _ _ _ _ _ _ _ _ _ _ _ _ _ _ _ _ h ?_
                  intro ch hch
                  have := List.eq_of_mem_replicate hch
                  subst this
                  rfl

/-- Witness for C10: the two channels read from `lines10` (where one Y cell is
blank) both have X and Y lists of equal length. -/
theorem c10_xy_lockstep_witness : lockstepB dat10 = true := by
  have h := c10_xy_lockstep lines10 fh10 sh10 Option.none dat10 com10 rem10 (by rfl)
  rw [lockstepB, List.all_eq_true]
  intro ch hch
  exact beq_iff_eq.mpr (h ch hch)

theorem isPre_refl (l : List Char) : isPre l l = true := by
  induction l with
  | nil => rfl
  | cons c cs ih => simp [isPre, ih]

theorem isPre_length_le (p s : List Char) (h : isPre p s = true) :
    p.length ≤ s.length := by
  induction p generalizing s with
  | nil => simp
  | cons c cs ih =>
    cases s with
    | nil => simp [isPre] at h
    | cons d ds =>
      simp only [isPre, Bool.and_eq_true] at h
      simpa using ih ds h.2

theorem isPre_eq_of_length (p s : List Char) (h : isPre p s = true)
    (hl : p.length = s.length) : p = s := by
  induction p generalizing s with
  | nil =>
    cases s with
    | nil => rfl
    | cons d ds => simp at hl
  | cons c cs ih =>
    cases s with
    | nil => simp [isPre] at h
    | cons d ds =>
      simp only [isPre, Bool.and_eq_true, beq_iff_eq] at h
      simp only [List.length_cons, Nat.add_right_cancel_iff] at hl
      rw [h.1, ih ds h.2 hl]

theorem pyReplaceF_self (pat rep : List Char) (fuel : Nat)
    (hne : pat ≠ []) (hfuel : 1 ≤ fuel) :
    pyReplaceF pat rep fuel pat = rep := by
  cases pat with
  | nil => exact absurd rfl hne
  | cons c cs =>
    cases fuel with
    | zero => omega
    | succ fuel =>
      rw [pyReplaceF]
      rw [if_pos ⟨hne, isPre_refl _⟩]
      rw [show ((c :: cs).drop (c :: cs).length) = [] from List.drop_length _]
      rw [pyReplaceF]
      simp

theorem pyReplaceF_short (pat rep s : List Char) (fuel : Nat)
    (h : s.length < pat.length) :
    pyReplaceF pat rep fuel s = s := by
  induction s generalizing fuel with
  | nil =>
    cases pat with
    | nil => simp at h
    | cons c cs => rw [pyReplaceF]
  | cons c rest ih =>
    cases fuel with
    | zero =>
      rw [pyReplaceF]
      simp
    | succ fuel =>
      rw [pyReplaceF]
      have hpre : ¬ (pat ≠ [] ∧ isPre pat (c :: rest) = true) := by
        rintro ⟨-, hp⟩
        exact absurd (isPre_length_le _ _ hp) (by omega)
      rw [if_neg hpre]
      have hne : ¬ pat = [] := by
        intro hp
        subst hp
        simp at h
      rw [if_neg hne]
      rw [ih fuel (by simp at h ⊢; omega)]

theorem pyReplaceF_ne_same_length (pat rep s : List Char) (fuel : Nat)
    (hl : s.length = pat.length) (hne : s ≠ pat) :
    pyReplaceF pat rep fuel s = s := by
  cases s with
  | nil =>
    cases pat with
    | nil => exact absurd rfl hne
    | cons c cs => simp at hl
  | cons c rest =>
    cases fuel with
    | zero =>
      rw [pyReplaceF]
      simp
    | succ fuel =>
      rw [pyReplaceF]
      have hpre : ¬ (pat ≠ [] ∧ isPre pat (c :: rest) = true) := by
        rintro ⟨-, hp⟩
        exact hne (isPre_eq_of_length _ _ hp hl.symm).symm
      rw [if_neg hpre]
      have hpat : ¬ pat = [] := by
        intro hp
        subst hp
        simp at hl
      rw [if_neg hpat]
      rw [pyReplaceF_short pat rep rest fuel (by simp at hl ⊢; omega)]

theorem pyReplaceF_not_contains (pat rep s : List Char) (fuel : Nat)
    (h : containsSub s pat = false) :
    pyReplaceF pat rep fuel s = s := by
  induction s generalizing fuel with
  | nil =>
    cases pat with
    | nil => simp [containsSub, isPre] at h
    | cons c cs => rw [pyReplaceF]
  | cons c rest ih =>
    rw [containsSub, Bool.or_eq_false_iff] at h
    cases fuel with
    | zero =>
      rw [pyReplaceF]
      simp
    | succ fuel =>
      rw [pyReplaceF]
      rw [if_neg (by rintro ⟨-, hp⟩; rw [h.1] at hp; exact Bool.false_ne_true hp)]
      have hpat : ¬ pat = [] := by
        intro hp
        subst hp
        simp [isPre] at h
      rw [if_neg hpat]
      rw [ih fuel h.2]

theorem natToHex_two_digits (n : Nat) (h16 : 16 ≤ n) (h256 : n < 256) :
    natToHex n = [Nat.digitChar (n / 16), Nat.digitChar (n % 16)] := by
  have hd : n / 16 < 16 := by
    rw [Nat.div_lt_iff_lt_mul (by omega : 0 < 16)]
    omega
  rw [natToHex, natToHexF, if_neg (by omega), natToHexF, if_pos hd]
  rfl

theorem toList_singleton (c : Char) : (String.singleton c).toList = [c] := rfl

theorem asString_toList (s : String) : s.toList.asString = s := rfl

theorem toList_asString (l : List Char) : l.asString.toList = l := rfl

theorem toUpper_backslash : Char.toUpper '\\' = '\\' := rfl

theorem toLower_backslash : Char.toLower '\\' = '\\' := rfl

theorem escU_length (c : Char) (h16 : 16 ≤ c.toNat) (h256 : c.toNat < 256) :
    (escU c).length = 3 := by
  rw [escU, natToHex_two_digits _ h16 h256]
  rfl

theorem escL_length (c : Char) (h16 : 16 ≤ c.toNat) (h256 : c.toNat < 256) :
    (escL c).length = 3 := by
  rw [escL, natToHex_two_digits _ h16 h256]
  rfl

/-- The `text` branch of `parse_value` for a one-character separator, written
through the escape patterns `escU`/`escL`. -/
theorem parse_value_text (v : String) (c : Char) (d : String) :
    parse_value v (some "text") (String.singleton c) d =
      .ok (.str (pyReplace (pyReplace v.toList (escU c) [c]) (escL c) [c]).asString) := by
  rw [parse_value]
  simp only [Option.some.injEq, String.reduceEq, if_false, if_true, reduceIte,
    toList_singleton]
  rw [escU, escL, List.map_cons, List.map_cons, toUpper_backslash, toLower_backslash]

/-- C9 (amended): for every delimiter whose code point has a two-digit hex
form (at least 0x10, and at most 0xFF so it is a byte), a text field equal to
the backslash-and-two-hex-digits escape, in upper or lower case, decodes to
the literal delimiter character; and a text field containing neither escape
form is returned byte-identical.  (For code points below 0x10 the pattern the
code builds has a single digit, see `c9_counterexample`.) -/
theorem c9_escape_roundtrip_amended :
    (∀ (c : Char) (d : String), 16 ≤ c.toNat → c.toNat < 256 →
      parse_value (escU c).asString (some "text") (String.singleton c) d
        = .ok (.str (String.singleton c)) ∧
      parse_value (escL c).asString (some "text") (String.singleton c) d
        = .ok (.str (String.singleton c))) ∧
    (∀ (c : Char) (d v : String),
      containsSub v.toList (escU c) = false →
      containsSub v.toList (escL c) = false →
      parse_value v (some "text") (String.singleton c) d = .ok (.str v)) := by
  constructor
  · intro c d h16 h256
    have hU3 := escU_length c h16 h256
    have hL3 := escL_length c h16 h256
    constructor
    · rw [parse_value_text, toList_asString]
      rw [show pyReplace (escU c) (escU c) [c] = [c] by
        simp only [pyReplace]
        exact pyReplaceF_self _ _ _ (by simp [escU]) (by simp [escU])]
      rw [show pyReplace [c] (escL c) [c] = [c] by
        simp only [pyReplace]
        exact pyReplaceF_short _ _ _ _ (by rw [hL3]; simp)]
      rfl
    · rw [parse_value_text, toList_asString]
      by_cases hEq : escU c = escL c
      · rw [show pyReplace (escL c) (escU c) [c] = [c] by
          simp only [pyReplace]
          rw [hEq]
          exact pyReplaceF_self _ _ _ (by simp [escL]) (by simp [escL])]
        rw [show pyReplace [c] (escL c) [c] = [c] by
          simp only [pyReplace]
          exact pyReplaceF_short _ _ _ _ (by rw [hL3]; simp)]
        rfl
      · rw [show pyReplace (escL c) (escU c) [c] = escL c by
          simp only [pyReplace]
          exact pyReplaceF_ne_same_length _ _ _ _ (by rw [hU3, hL3])
            (fun hh => hEq hh.symm)]
        rw [show pyReplace (escL c) (escL c) [c] = [c] by
          simp only [pyReplace]
          exact pyReplaceF_self _ _ _ (by simp [escL]) (by simp [escL])]
        rfl
  · intro c d v hcu hcl
    rw [parse_value_text]
    rw [show pyReplace v.toList (escU c) [c] = v.toList by
      simp only [pyReplace]
      exact pyReplaceF_not_contains _ _ _ _ hcu]
    rw [show pyReplace v.toList (escL c) [c] = v.toList by
      simp only [pyReplace]
      exact pyReplaceF_not_contains _ _ _ _ hcl]
    rw [asString_toList]

/-- Witness for C9 (amended) at the comma delimiter (code point 0x2C): both
escape cases decode to a literal comma, and an escape-free field passes
through unchanged. -/
theorem c9_escape_roundtrip_amended_witness :
    parse_value "\\2C" (some "text") "," "," = .ok (.str ",") ∧
    parse_value "\\2c" (some "text") "," "," = .ok (.str ",") ∧
    parse_value "hello" (some "text") "," "," = .ok (.str "hello") := by
  refine ⟨?_, ?_, ?_⟩
  · exact (c9_escape_roundtrip_amended.1 ',' "," (by decide) (by decide)).1
  · exact (c9_escape_roundtrip_amended.1 ',' "," (by decide) (by decide)).2
  · exact c9_escape_roundtrip_amended.2 ',' "," "hello" (by decide) (by decide)

theorem coerceValues_length (values : List String) (t : Option String)
    (sep decsep : String) (data : List Scalar)
    (h : coerceValues values t sep decsep = .ok data) :
    data.length = (values.filter (fun v => v != "")).length := by
  induction values generalizing data with
  | nil =>
    simp only [coerceValues, Except.ok.injEq] at h
    subst h
    rfl
  | cons v vs ih =>
    rw [coerceValues] at h
    split at h
    · rename_i hv
      cases hp : parse_value v t sep decsep with
      | error e =>
        rw [hp] at h
        simp at h
      | ok d =>
        rw [hp] at h
        dsimp only at h
        cases hc : coerceValues vs t sep decsep with
        | error e =>
          rw [hc] at h
          simp at h
        | ok ds =>
          rw [hc] at h
          simp only [Except.ok.injEq] at h
          subst h
          have hvb : (v != "") = true := by
            simpa using hv
          simp [List.filter_cons, hvb, ih ds hc]
    · rename_i hv
      have hvb : (v != "") = false := by
        simpa using hv
      simp only [List.filter_cons, hvb]
      exact ih data h

/-- C6 (amended): a key/value(s) segment-header line is settled by the number
of NON-EMPTY value tokens, each coerced with failed coercions kept as the
no-value sentinel: zero non-empty tokens is the fatal parse error; exactly one
stores its (possibly no-value) result as a scalar; a count equal to the stored
`Channels` value stores the full per-channel list; any other count raises the
mismatch error naming the field, the channel count and the data received. -/
theorem c6_value_cardinality_amended (fuel : Nat) (fh : PyDict) (st : Bool)
    (hdr : PyDict) (line : String) (rest : List String) (sep ds key : String)
    (values : List String) (fs : FieldSpec) (data : List Scalar)
    (hstrip : stripNl line = line)
    (hend : pyStartsWith line END_OF_HEADER = false)
    (hsep : fetchStr fh "Separator" = .ok sep)
    (hblank : (pyStartsWith line sep || line == "") = false)
    (hspecial : pyStartsWith line SPECIAL_BLOCK_START = false)
    (hsplit : pySplit line sep = .ok (key :: values))
    (hkey : specLookup SEGMENT_HEADERS key = some fs)
    (hds : fetchStr fh "Decimal_Separator" = .ok ds)
    (hcoerce : coerceValues values (some fs.vtype) sep ds = .ok data) :
    data.length = (values.filter (fun v => v != "")).length ∧
    (data = [] →
      rshLoop (fuel + 1) fh st hdr (line :: rest) =
        .error (.lvmError ("Error parsing value at:\n" ++ line))) ∧
    (∀ d, data = [d] →
      rshLoop (fuel + 1) fh st hdr (line :: rest) =
        rshLoop fuel fh st (setA hdr key (PyVal.scalar d)) rest) ∧
    (2 ≤ data.length → channelsEq hdr data.length = true →
      rshLoop (fuel + 1) fh st hdr (line :: rest) =
        rshLoop fuel fh st (setA hdr key (PyVal.list data)) rest) ∧
    (2 ≤ data.length → channelsEq hdr data.length = false →
      rshLoop (fuel + 1) fh st hdr (line :: rest) =
        .error (.lvmError (mismatchMsg hdr key data))) := by
  have hred : rshLoop (fuel + 1) fh st hdr (line :: rest) =
      match data with
      | [] => .error (.lvmError ("Error parsing value at:\n" ++ line))
      | [d] => rshLoop fuel fh st (setA hdr key (PyVal.scalar d)) rest
      | _ :: _ :: _ =>
        if channelsEq hdr data.length then
          rshLoop fuel fh st (setA hdr key (PyVal.list data)) rest
        else .error (.lvmError (mismatchMsg hdr key data)) := by
    simp only [rshLoop]
    rw [hstrip, hend]
    simp only [Bool.false_eq_true, if_false]
    rw [hsep]
    dsimp only
    rw [hblank]
    simp only [Bool.false_eq_true, if_false]
    rw [hspecial]
    simp only [Bool.false_eq_true, if_false]
    rw [hsplit]
    dsimp only
    rw [hkey]
    dsimp only
    rw [hds]
    dsimp only
    simp only [hcoerce]
    rcases data with - | ⟨d1, - | ⟨d2, ds⟩⟩ <;> rfl
  refine ⟨coerceValues_length _ _ _ _ _ hcoerce, ?_, ?_, ?_, ?_⟩
  · intro h0
    subst h0
    simpa using hred
  · intro d h1
    subst h1
    simpa using hred
  · intro h2 hch
    match data, h2 with
    | d1 :: d2 :: ds, _ =>
      rw [hred, hch]
      simp
  · intro h2 hch
    match data, h2 with
    | d1 :: d2 :: ds, _ =>
      rw [hred, hch]
      simp

/-- Witness for C6 (amended): the line `Samples\t3` has one non-empty token
coercing to the integer 3, which is stored as a scalar and the loop
continues. -/
theorem c6_value_cardinality_amended_witness :
    rshLoop 2 fhMini false [] ["Samples\t3"] =
      rshLoop 1 fhMini false (setA [] "Samples" (PyVal.scalar (.int 3))) [] := by
  exact (c6_value_cardinality_amended 1 fhMini false [] "Samples\t3" [] "\t" ","
    "Samples" ["3"] (FieldSpec.mk true "integer" Option.none []) [.int 3]
    rfl rfl rfl rfl rfl rfl rfl rfl rfl).2.2.1 (.int 3) rfl
